import Mathlib

/-!
Verification of the NextUI Brick poweroff hook against its specification.

The development shallowly embeds the C sources:
  * `src/src/poweroff_hook.c` — the kernel module (Register Bus Client,
    Mount Prober, Process Reaper, Filesystem Unwinder, PMIC Shutdown
    Sequencer, Shutdown Orchestrator / monitor thread, module init);
  * `src/poweroff_daemon.c` — the user-space daemon variant (only its
    mount prober `is_sdcard_unmounted` is needed by a claim).

Side-effecting calls (usermode helpers, bus transactions, debug markers,
log writes, the terminal `kernel_power_off`) are recorded as an explicit
trace of `Event`s.  Fallible externals (`kern_path`, `i2c_transfer`,
`i2c_get_adapter`, `kthread_run`, the trigger file) are supplied by
environment records, so every theorem quantifies over all outcomes of the
external world.  `kernel_power_off` is modelled as non-returning (on
correct hardware it never returns; even if it returned, the C code spins
in `while (1) cpu_relax();` forever), so a trace ends at its
`Event.kernelPowerOff`.
-/

namespace PoweroffHook

/-- The debug-marker stages written by `write_debug_marker` in
`src/src/poweroff_hook.c`, one constructor per string literal in the
source (`UNMOUNT_SDCARD_ATTEMPT_%d` carries its attempt number). -/
inductive Marker where
  | SIGNAL_DETECTED
  | BEFORE_KILL_PROCESSES
  | AFTER_KILL_PROCESSES
  | BEFORE_UNMOUNT
  | AFTER_UNMOUNT
  | UNMOUNT_SYNC_START
  | UNMOUNT_SYNC_DONE
  | UNMOUNT_SWAPOFF_START
  | UNMOUNT_SWAPOFF_DONE
  | UNMOUNT_PROFILE_START
  | UNMOUNT_PROFILE_DONE
  | UNMOUNT_DISABLE_SD_LOGGING
  | UNMOUNT_SDCARD_PRE_SYNC
  | UNMOUNT_SDCARD_PRE_SYNC_DONE
  | UNMOUNT_SDCARD_START
  | UNMOUNT_SDCARD_ATTEMPT (n : Nat)
  | UNMOUNT_SDCARD_FUSER_KILL
  | UNMOUNT_SDCARD_WAIT_START
  | UNMOUNT_SDCARD_WAIT_DONE
  | UNMOUNT_SDCARD_CHECK_START
  | UNMOUNT_SDCARD_SUCCESS
  | UNMOUNT_SDCARD_STILL_MOUNTED
  | UNMOUNT_SDCARD_RETRY_SYNC
  | UNMOUNT_FINAL_SYNC_START
  | UNMOUNT_FINAL_SYNC_DONE
  | SD_STILL_MOUNTED_EMERGENCY
  | EMERGENCY_KERNEL_POWEROFF
  | SD_UNMOUNTED_OK
  | BEFORE_PMIC_SHUTDOWN
  | AFTER_PMIC_SHUTDOWN
  | BEFORE_KERNEL_POWEROFF
  | PMIC_SEQUENCE_START
  | STEP1_MASK_INTERRUPTS
  | STEP2_CLEAR_IRQ_STATUS
  | STEP3_SHUTDOWN_SOURCES
  | STEP4_TRIGGER_POWEROFF
  | STEP4_COMPLETE
  | PMIC_SEQUENCE_COMPLETE
  deriving DecidableEq

/-- Observable actions of the module, in program order.  `regWrite` is a
two-byte transaction actually issued on the I2C bus (it is emitted only
when the adapter handle exists); the `*Cmd` events are the
`call_usermodehelper` invocations; `sdLog` is an append attempt by
`write_log` to the SD-card log (its text content is abstracted away);
`kernelPowerOff` is the terminal power-off primitive. -/
inductive Event where
  | marker (m : Marker)
  | sdLog
  | regWrite (reg value : Nat)
  | kernelPowerOff
  | syncCmd
  | swapoffCmd
  | umountProfileCmd
  | fuserCmd
  | umountSDCardCmd
  | killallTermCmd
  | killallKillCmd
  | truncateTriggerFile
  | copyRootLog
  deriving DecidableEq

/-- The (register, value) pairs a trace issued on the bus, in order. -/
def busWrites (tr : List Event) : List (Nat × Nat) :=
  tr.filterMap fun e =>
    match e with
    | Event.regWrite r v => some (r, v)
    | _ => none

/-- errno value `ENODEV` (as the negative return `-ENODEV_errno`). -/
def ENODEV_errno : Int := 19

/-- errno value `EIO`. -/
def EIO_errno : Int := 5

/-- Embeds `axp2202_write_reg` (src/src/poweroff_hook.c:83-109).
`adapterPresent` is whether the global `i2c_adapter` handle is non-NULL;
`res` is the value `i2c_transfer` would return for this single
transaction (1 = one message transferred).  Returns the bus events issued
(at most one transaction, no retry) and the C return value:
no handle → `-ENODEV` without touching the bus; `res = 1` → `0`;
otherwise `res` if negative, else `-EIO`. -/
def axp2202_write_reg (adapterPresent : Bool) (res : Int) (reg value : Nat) :
    List Event × Int :=
  if adapterPresent = false then
    ([], -ENODEV_errno)
  else if res = 1 then
    ([Event.regWrite reg value], 0)
  else
    ([Event.regWrite reg value], if res < 0 then res else -EIO_errno)

/-- One sequencer call to `axp2202_write_reg`, threading the index of the
next `i2c_transfer` (a transaction is consumed only when the adapter
handle exists, matching the early `-ENODEV` return). -/
def seqWrite (adapter : Bool) (txRes : Nat → Int) (ix : Nat) (reg value : Nat) :
    List Event × Nat :=
  ((axp2202_write_reg adapter (txRes ix) reg value).1,
   if adapter then ix + 1 else ix)

/-- A `for` loop of sequencer register writes over a fixed table
(the write failures are logged and ignored, as in the source). -/
def seqWriteList (adapter : Bool) (txRes : Nat → Int) :
    Nat → List (Nat × Nat) → List Event × Nat
  | ix, [] => ([], ix)
  | ix, (r, v) :: rest =>
      let w := seqWrite adapter txRes ix r v
      let t := seqWriteList adapter txRes w.2 rest
      (w.1 ++ t.1, t.2)

/-- Step 1 table: `for (i = 0x40; i <= 0x44; i++) axp2202_write_reg(i, 0x00)`. -/
def irqMaskWrites : List (Nat × Nat) :=
  (List.range 5).map fun k => (0x40 + k, 0x00)

/-- Step 2 table: `for (i = 0x48; i <= 0x4C; i++) axp2202_write_reg(i, 0xFF)`. -/
def irqClearWrites : List (Nat × Nat) :=
  (List.range 5).map fun k => (0x48 + k, 0xFF)

/-- The fixed PMIC register program of `execute_axp2202_poweroff`:
0x40..0x44 ← 0x00, then 0x48..0x4C ← 0xFF, then 0x22 ← 0x0A,
then 0x27 ← 0x01. -/
def pmicTable : List (Nat × Nat) :=
  irqMaskWrites ++ irqClearWrites ++ [(0x22, 0x0A), (0x27, 0x01)]

/-- Embeds `execute_axp2202_poweroff` (src/src/poweroff_hook.c:304-355):
markers and register writes in source order; the `msleep` settle delays
have no observable event.  Returns the trace and the next transaction
index. -/
def execute_axp2202_poweroff (adapter : Bool) (txRes : Nat → Int) (ix : Nat) :
    List Event × Nat :=
  let s1 := seqWriteList adapter txRes ix irqMaskWrites
  let s2 := seqWriteList adapter txRes s1.2 irqClearWrites
  let s3 := seqWrite adapter txRes s2.2 0x22 0x0A
  let s4 := seqWrite adapter txRes s3.2 0x27 0x01
  ([Event.marker Marker.PMIC_SEQUENCE_START,
    Event.marker Marker.STEP1_MASK_INTERRUPTS] ++ s1.1 ++
   [Event.marker Marker.STEP2_CLEAR_IRQ_STATUS] ++ s2.1 ++
   [Event.marker Marker.STEP3_SHUTDOWN_SOURCES] ++ s3.1 ++
   [Event.marker Marker.STEP4_TRIGGER_POWEROFF] ++ s4.1 ++
   [Event.marker Marker.STEP4_COMPLETE,
    Event.marker Marker.PMIC_SEQUENCE_COMPLETE], s4.2)

/-- Embeds `is_sdcard_mounted` (src/src/poweroff_hook.c:114-124).  The
argument is the outcome of `kern_path` + `d_mountpoint` for this probe:
`none` = `kern_path` failed (path could not be resolved; `mounted` keeps
its initial `false`), `some b` = the path resolved and `d_mountpoint`
returned `b`. -/
def is_sdcard_mounted : Option Bool → Bool
  | none => false
  | some b => b

/-- `strstr(line, pat) != NULL` for a non-empty pattern: `pat` occurs as
a substring of `line` iff splitting on it yields at least two pieces. -/
def strstrFound (line pat : String) : Bool :=
  2 ≤ (line.splitOn pat).length

/-- Embeds `is_sdcard_unmounted` of the daemon variant
(src/poweroff_daemon.c:52-69).  The argument is the content of
`/proc/mounts` as a list of lines, or `none` if `fopen` failed
("Assume unmounted if we can't check").  Returns 1 (true) iff no line
contains the substring `/mnt/SDCARD`. -/
def is_sdcard_unmounted : Option (List String) → Bool
  | none => true
  | some lines => !(lines.any fun l => strstrFound l "/mnt/SDCARD")

/-- External-world outcomes consumed during one pass of the monitor
thread: `probe k` feeds the k-th `is_sdcard_mounted` call of the run,
`txRes k` the k-th `i2c_transfer`, and `signalLater` whether NextUI
creates `/tmp/poweroff` at some point after module load. -/
structure Env where
  probe : Nat → Option Bool
  txRes : Nat → Int
  signalLater : Bool

/-- Result of the k-th mount probe of a run. -/
def mountedAt (env : Env) (k : Nat) : Bool :=
  is_sdcard_mounted (env.probe k)

/-- Embeds `write_log` (src/src/poweroff_hook.c:129-151): when SD-card
logging is disabled it returns immediately with no file write; otherwise
it attempts an append to the SD-card log (message text abstracted). -/
def write_log (sdLoggingEnabled : Bool) : List Event :=
  if sdLoggingEnabled then [Event.sdLog] else []

/-- Embeds `kill_all_processes` (src/src/poweroff_hook.c:183-203):
`killall5 -15`, 500 ms grace, `killall5 -9`, 200 ms reap wait. -/
def kill_all_processes : List Event :=
  [Event.killallTermCmd, Event.killallKillCmd]

/-- Embeds the SD-card retry loop of `unmount_filesystems`
(src/src/poweroff_hook.c:251-291): `for (retry = 0; retry < 3; retry++)`,
with `fuser -km` before retries after the first, a forced+lazy umount,
a settle wait, a re-probe that breaks on success, and a sync before the
next retry while `retry < 2`.  `fuel` is `3 - retry`; `pIx` is the index
of the next mount probe.  Returns the trace and the next probe index. -/
def unmountRetryLoop (env : Env) : Nat → Nat → Nat → List Event × Nat
  | pIx, _retry, 0 => ([], pIx)
  | pIx, retry, fuel + 1 =>
      let hdr :=
        [Event.marker (Marker.UNMOUNT_SDCARD_ATTEMPT (retry + 1))] ++
        (if 0 < retry then
          [Event.marker Marker.UNMOUNT_SDCARD_FUSER_KILL, Event.fuserCmd]
         else []) ++
        [Event.umountSDCardCmd,
         Event.marker Marker.UNMOUNT_SDCARD_WAIT_START,
         Event.marker Marker.UNMOUNT_SDCARD_WAIT_DONE,
         Event.marker Marker.UNMOUNT_SDCARD_CHECK_START]
      if mountedAt env pIx = false then
        (hdr ++ [Event.marker Marker.UNMOUNT_SDCARD_SUCCESS], pIx + 1)
      else
        let tl :=
          [Event.marker Marker.UNMOUNT_SDCARD_STILL_MOUNTED] ++
          (if retry < 2 then
            [Event.marker Marker.UNMOUNT_SDCARD_RETRY_SYNC, Event.syncCmd]
           else [])
        let rest := unmountRetryLoop env (pIx + 1) (retry + 1) fuel
        (hdr ++ tl ++ rest.1, rest.2)

/-- Embeds `unmount_filesystems` (src/src/poweroff_hook.c:208-299):
sync, swapoff, forced umount of `/etc/profile`, disable SD-card logging
(`sd_logging_enabled = false` — the only assignment to that flag in the
module), pre-unmount sync, the retry loop, final sync.  Takes and
returns the `sd_logging_enabled` flag along with the trace and the next
probe index. -/
def unmount_filesystems (env : Env) (pIx : Nat) (_sdLogging : Bool) :
    List Event × Nat × Bool :=
  let loop := unmountRetryLoop env pIx 0 3
  ([Event.marker Marker.UNMOUNT_SYNC_START, Event.syncCmd,
    Event.marker Marker.UNMOUNT_SYNC_DONE,
    Event.marker Marker.UNMOUNT_SWAPOFF_START, Event.swapoffCmd,
    Event.marker Marker.UNMOUNT_SWAPOFF_DONE,
    Event.marker Marker.UNMOUNT_PROFILE_START, Event.umountProfileCmd,
    Event.marker Marker.UNMOUNT_PROFILE_DONE,
    Event.marker Marker.UNMOUNT_DISABLE_SD_LOGGING,
    Event.marker Marker.UNMOUNT_SDCARD_PRE_SYNC, Event.syncCmd,
    Event.marker Marker.UNMOUNT_SDCARD_PRE_SYNC_DONE,
    Event.marker Marker.UNMOUNT_SDCARD_START] ++ loop.1 ++
   [Event.marker Marker.UNMOUNT_FINAL_SYNC_START, Event.syncCmd,
    Event.marker Marker.UNMOUNT_FINAL_SYNC_DONE],
   loop.2, false)

/-- Embeds the body of `monitor_thread_fn` after the signal file has been
detected (src/src/poweroff_hook.c:383-449): markers, one `write_log`
(the flag is still true at that point), process reaping, filesystem
unwinding, then the post-unwind probe decides between the emergency
branch (terminal power-off with no PMIC sequence) and the sequencing
branch (PMIC program then terminal power-off).  `kernel_power_off` does
not return, so the trace ends there. -/
def shutdownRun (adapter : Bool) (env : Env) : List Event :=
  let um := unmount_filesystems env 0 true
  [Event.marker Marker.SIGNAL_DETECTED] ++ write_log true ++
  [Event.marker Marker.BEFORE_KILL_PROCESSES] ++ kill_all_processes ++
  [Event.marker Marker.AFTER_KILL_PROCESSES,
   Event.marker Marker.BEFORE_UNMOUNT] ++ um.1 ++
  [Event.marker Marker.AFTER_UNMOUNT] ++
  (if is_sdcard_mounted (env.probe um.2.1) then
    [Event.marker Marker.SD_STILL_MOUNTED_EMERGENCY,
     Event.marker Marker.EMERGENCY_KERNEL_POWEROFF,
     Event.kernelPowerOff]
   else
    [Event.marker Marker.SD_UNMOUNTED_OK,
     Event.marker Marker.BEFORE_PMIC_SHUTDOWN] ++
    (execute_axp2202_poweroff adapter env.txRes 0).1 ++
    [Event.marker Marker.AFTER_PMIC_SHUTDOWN,
     Event.marker Marker.BEFORE_KERNEL_POWEROFF,
     Event.kernelPowerOff])

/-- Whether the post-unwind verification probe (src/src/poweroff_hook.c:414)
reports the SD card still mounted, i.e. the `EmergencyPoweroff` branch
is taken. -/
def emergencyTaken (env : Env) : Bool :=
  is_sdcard_mounted (env.probe (unmount_filesystems env 0 true).2.1)

/-- How many `umount -f -l /mnt/SDCARD` actions the retry loop performs:
it breaks at the first probe reporting unmounted, after at most 3
iterations. -/
def attemptsCount (env : Env) : Nat :=
  if mountedAt env 0 = false then 1
  else if mountedAt env 1 = false then 2
  else 3

/-- External-world outcomes consumed by `poweroff_hook_init`:
whether `i2c_get_adapter(6)` succeeds, the trigger file's state at load
(`none` = absent, `some n` = exists with size `n`), whether the
`O_WRONLY|O_TRUNC` re-open of a stale trigger file succeeds, whether
`kthread_run` succeeds, and the `PTR_ERR` code if it fails. -/
structure InitEnv where
  adapterOk : Bool
  triggerFile : Option Nat
  truncOk : Bool
  threadOk : Bool
  threadErr : Int

/-- Outcome of `poweroff_hook_init`: its return value, whether the
monitor thread was created, whether the adapter handle is held at exit,
the trigger file's state after init, and the events performed. -/
structure InitResult where
  ret : Int
  threadStarted : Bool
  adapterHeld : Bool
  triggerFile : Option Nat
  events : List Event

/-- Embeds `poweroff_hook_init` (src/src/poweroff_hook.c:463-585).
If the I2C adapter cannot be acquired it returns `-ENODEV` at once
(no stale-file handling, no thread).  Otherwise: register 0x27 is
deliberately not written; a stale trigger file is re-opened with
`O_WRONLY|O_TRUNC` — truncated to size 0, which leaves the file in
existence; the load message is logged; `/root/poweroff_hook.log` is
appended to the main log; the monitor thread is started (on failure the
adapter is released and `PTR_ERR` returned). -/
def poweroff_hook_init (ienv : InitEnv) : InitResult :=
  if ienv.adapterOk = false then
    ⟨-ENODEV_errno, false, false, ienv.triggerFile, []⟩
  else
    let fileAfter :=
      match ienv.triggerFile with
      | none => none
      | some n => if ienv.truncOk then some 0 else some n
    let staleEvents :=
      match ienv.triggerFile with
      | none => []
      | some _ => if ienv.truncOk then [Event.truncateTriggerFile] else []
    let ev := staleEvents ++ write_log true ++ [Event.copyRootLog]
    if ienv.threadOk then
      ⟨0, true, true, fileAfter, ev⟩
    else
      ⟨ienv.threadErr, false, false, fileAfter, ev⟩

/-- The monitor thread's trigger check (src/src/poweroff_hook.c:379):
`filp_open(POWEROFF_SIGNAL_FILE, O_RDONLY, 0)` succeeds iff the file
exists — a pure existence check, blind to the file's size. -/
def monitorDetects (triggerFile : Option Nat) : Bool :=
  triggerFile.isSome

/-- One module lifetime: init, then — only if the monitor thread was
created — the monitor poll loop, which enters the shutdown sequence iff
the trigger file (as left by init) already exists or NextUI creates it
later.  The thread only ever runs with the adapter handle acquired, so
the shutdown run uses `adapter = true`. -/
def moduleRun (ienv : InitEnv) (env : Env) : List Event :=
  let ir := poweroff_hook_init ienv
  ir.events ++
  (if ir.threadStarted && (monitorDetects ir.triggerFile || env.signalLater)
   then shutdownRun true env
   else [])

/-- The event trace of one sequencer execution with the adapter handle
present, written out: marker and bus-write order of
`execute_axp2202_poweroff`, independent of per-write transfer results. -/
def pmicEventList : List Event :=
  [Event.marker Marker.PMIC_SEQUENCE_START,
   Event.marker Marker.STEP1_MASK_INTERRUPTS] ++
  (irqMaskWrites.map fun p => Event.regWrite p.1 p.2) ++
  [Event.marker Marker.STEP2_CLEAR_IRQ_STATUS] ++
  (irqClearWrites.map fun p => Event.regWrite p.1 p.2) ++
  [Event.marker Marker.STEP3_SHUTDOWN_SOURCES, Event.regWrite 0x22 0x0A,
   Event.marker Marker.STEP4_TRIGGER_POWEROFF, Event.regWrite 0x27 0x01,
   Event.marker Marker.STEP4_COMPLETE,
   Event.marker Marker.PMIC_SEQUENCE_COMPLETE]

/-- The bus writes of the fixed program, as events. -/
def pmicRegEvents : List Event :=
  pmicTable.map fun p => Event.regWrite p.1 p.2

/-- The markers that announce entry into a stage of the orchestrator
state machine (`Triggered`, `ReapingProcesses`, `Unwinding`,
`Sequencing`, `EmergencyPoweroff`, `Terminal`). -/
def isStageMarkerEv : Event → Bool
  | Event.marker Marker.SIGNAL_DETECTED => true
  | Event.marker Marker.BEFORE_KILL_PROCESSES => true
  | Event.marker Marker.BEFORE_UNMOUNT => true
  | Event.marker Marker.BEFORE_PMIC_SHUTDOWN => true
  | Event.marker Marker.EMERGENCY_KERNEL_POWEROFF => true
  | Event.marker Marker.BEFORE_KERNEL_POWEROFF => true
  | _ => false

/-- Stage-marker order of a run taking the emergency branch. -/
def emStageMarkers : List Event :=
  [Event.marker Marker.SIGNAL_DETECTED,
   Event.marker Marker.BEFORE_KILL_PROCESSES,
   Event.marker Marker.BEFORE_UNMOUNT,
   Event.marker Marker.EMERGENCY_KERNEL_POWEROFF]

/-- Stage-marker order of a run taking the sequencing branch. -/
def seqStageMarkers : List Event :=
  [Event.marker Marker.SIGNAL_DETECTED,
   Event.marker Marker.BEFORE_KILL_PROCESSES,
   Event.marker Marker.BEFORE_UNMOUNT,
   Event.marker Marker.BEFORE_PMIC_SHUTDOWN,
   Event.marker Marker.BEFORE_KERNEL_POWEROFF]

/-- Is this event a bus write at all? -/
def isRegWriteEv : Event → Bool
  | Event.regWrite _ _ => true
  | _ => false

/-- Is this event a bus write to the software power-off trigger register
0x27? -/
def isTriggerRegWrite : Event → Bool
  | Event.regWrite r _ => r == 0x27
  | _ => false

/-- Whether the retry loop of the run ends by observing a successful
unmount (the only way it can end before exhausting its 3 iterations). -/
def loopSucceeded (env : Env) : Bool :=
  !(mountedAt env (attemptsCount env - 1))

/-- The header of retry-loop iteration `k` (1-based): attempt marker,
`fuser -km` on iterations after the first, the forced+lazy umount, the
settle-wait and re-probe markers. -/
def attemptHdr (k : Nat) : List Event :=
  [Event.marker (Marker.UNMOUNT_SDCARD_ATTEMPT k)] ++
  (if 1 < k then
    [Event.marker Marker.UNMOUNT_SDCARD_FUSER_KILL, Event.fuserCmd]
   else []) ++
  [Event.umountSDCardCmd,
   Event.marker Marker.UNMOUNT_SDCARD_WAIT_START,
   Event.marker Marker.UNMOUNT_SDCARD_WAIT_DONE,
   Event.marker Marker.UNMOUNT_SDCARD_CHECK_START]

/-- The tail of a failed retry-loop iteration `k` (1-based): the
still-mounted marker, plus a sync before the next retry when one
remains. -/
def failTail (k : Nat) : List Event :=
  [Event.marker Marker.UNMOUNT_SDCARD_STILL_MOUNTED] ++
  (if k < 3 then
    [Event.marker Marker.UNMOUNT_SDCARD_RETRY_SYNC, Event.syncCmd]
   else [])

/-- The retry loop's trace, reconstructed from its attempt count and
whether the last attempt succeeded (the combinations a program run can
produce are (1, true), (2, true), (3, true) and (3, false)). -/
def unwindLoopTrace : Nat → Bool → List Event
  | 1, true => attemptHdr 1 ++ [Event.marker Marker.UNMOUNT_SDCARD_SUCCESS]
  | 2, true => attemptHdr 1 ++ failTail 1 ++ attemptHdr 2 ++
      [Event.marker Marker.UNMOUNT_SDCARD_SUCCESS]
  | 3, true => attemptHdr 1 ++ failTail 1 ++ attemptHdr 2 ++ failTail 2 ++
      attemptHdr 3 ++ [Event.marker Marker.UNMOUNT_SDCARD_SUCCESS]
  | 3, false => attemptHdr 1 ++ failTail 1 ++ attemptHdr 2 ++ failTail 2 ++
      attemptHdr 3 ++ failTail 3
  | _, _ => []

/-- The events of the monitor-thread run preceding the filesystem
unwinder: trigger marker, the one SD-card log write (logging still
enabled), and process reaping. -/
def preUnwindTrace : List Event :=
  [Event.marker Marker.SIGNAL_DETECTED, Event.sdLog,
   Event.marker Marker.BEFORE_KILL_PROCESSES,
   Event.killallTermCmd, Event.killallKillCmd,
   Event.marker Marker.AFTER_KILL_PROCESSES,
   Event.marker Marker.BEFORE_UNMOUNT]

/-- The fixed events of `unmount_filesystems` before its retry loop. -/
def unwindHead : List Event :=
  [Event.marker Marker.UNMOUNT_SYNC_START, Event.syncCmd,
   Event.marker Marker.UNMOUNT_SYNC_DONE,
   Event.marker Marker.UNMOUNT_SWAPOFF_START, Event.swapoffCmd,
   Event.marker Marker.UNMOUNT_SWAPOFF_DONE,
   Event.marker Marker.UNMOUNT_PROFILE_START, Event.umountProfileCmd,
   Event.marker Marker.UNMOUNT_PROFILE_DONE,
   Event.marker Marker.UNMOUNT_DISABLE_SD_LOGGING,
   Event.marker Marker.UNMOUNT_SDCARD_PRE_SYNC, Event.syncCmd,
   Event.marker Marker.UNMOUNT_SDCARD_PRE_SYNC_DONE,
   Event.marker Marker.UNMOUNT_SDCARD_START]

/-- The fixed events of `unmount_filesystems` after its retry loop. -/
def unwindTail : List Event :=
  [Event.marker Marker.UNMOUNT_FINAL_SYNC_START, Event.syncCmd,
   Event.marker Marker.UNMOUNT_FINAL_SYNC_DONE]

/-- The emergency branch's tail: markers then the terminal call. -/
def emTailTrace : List Event :=
  [Event.marker Marker.SD_STILL_MOUNTED_EMERGENCY,
   Event.marker Marker.EMERGENCY_KERNEL_POWEROFF,
   Event.kernelPowerOff]

/-- The sequencing branch's tail: markers, the PMIC program (adapter
present), then the terminal call. -/
def seqTailTrace : List Event :=
  [Event.marker Marker.SD_UNMOUNTED_OK,
   Event.marker Marker.BEFORE_PMIC_SHUTDOWN] ++ pmicEventList ++
  [Event.marker Marker.AFTER_PMIC_SHUTDOWN,
   Event.marker Marker.BEFORE_KERNEL_POWEROFF,
   Event.kernelPowerOff]

/-- The whole monitor-thread shutdown trace as a function of the
attempt count, the loop success flag and the branch decision. -/
def runTrace (a : Nat) (succ emerg : Bool) : List Event :=
  preUnwindTrace ++ unwindHead ++ unwindLoopTrace a succ ++ unwindTail ++
  [Event.marker Marker.AFTER_UNMOUNT] ++
  (if emerg then emTailTrace else seqTailTrace)

/-- A monitor-thread environment in which the very first unmount attempt
succeeds, every bus transfer succeeds, and no external trigger appears. -/
def envQuick : Env :=
  ⟨fun _ => some false, fun _ => 1, false⟩

/-- A monitor-thread environment in which every `kern_path` call fails
(the mount-point path can never be resolved). -/
def envProbeFail : Env :=
  ⟨fun _ => none, fun _ => 1, false⟩

/-- Module load with a stale 5-byte trigger file left over from a
previous boot, with the adapter, the truncating re-open and the thread
all succeeding. -/
def ienvStale : InitEnv :=
  ⟨true, some 5, true, true, -12⟩

/-- Module load during which `i2c_get_adapter(6)` returns NULL. -/
def ienvNoAdapter : InitEnv :=
  ⟨false, none, true, true, -12⟩

/-- Module load with no stale trigger file and everything succeeding. -/
def ienvClean : InitEnv :=
  ⟨true, none, true, true, -12⟩

/-! ### Helper lemmas -/

/-- With the adapter handle present, a bus-client call issues exactly the
requested transaction, whatever the transfer outcome. -/
theorem axp2202_write_reg_events (res : Int) (r v : Nat) :
    (axp2202_write_reg true res r v).1 = [Event.regWrite r v] := by
  unfold axp2202_write_reg
  split
  · simp_all
  · split <;> rfl

/-- With the adapter handle present, a table loop of sequencer writes
issues exactly the table, in order, and consumes one transaction per
entry. -/
theorem seqWriteList_adapter (txRes : Nat → Int) (l : List (Nat × Nat))
    (ix : Nat) :
    seqWriteList true txRes ix l =
      (l.map fun p => Event.regWrite p.1 p.2, ix + l.length) := by
  induction l generalizing ix with
  | nil => simp [seqWriteList]
  | cons hd tl ih =>
      cases hd with
      | mk r v =>
          simp [seqWriteList, seqWrite, axp2202_write_reg_events, ih]
          omega

/-- With the adapter handle present, the sequencer's trace is the fixed
event list, independent of the per-write transfer results. -/
theorem execute_axp2202_poweroff_events (txRes : Nat → Int) (ix : Nat) :
    (execute_axp2202_poweroff true txRes ix).1 = pmicEventList := by
  simp [execute_axp2202_poweroff, seqWriteList_adapter, seqWrite,
    axp2202_write_reg_events, pmicEventList]

/-- The attempt count and loop success flag only come in four
combinations: success on attempt 1, 2 or 3, or failure after 3. -/
theorem attempts_cases (env : Env) :
    (attemptsCount env = 1 ∧ loopSucceeded env = true) ∨
    (attemptsCount env = 2 ∧ loopSucceeded env = true) ∨
    (attemptsCount env = 3 ∧ loopSucceeded env = true) ∨
    (attemptsCount env = 3 ∧ loopSucceeded env = false) := by
  cases h0 : mountedAt env 0 <;> cases h1 : mountedAt env 1 <;>
    cases h2 : mountedAt env 2 <;>
    simp [attemptsCount, loopSucceeded, h0, h1, h2]

/-- The retry loop's trace is `unwindLoopTrace` at its attempt count and
success flag, and its next probe index is the attempt count. -/
theorem unmountRetryLoop_eq (env : Env) :
    unmountRetryLoop env 0 0 3 =
      (unwindLoopTrace (attemptsCount env) (loopSucceeded env),
       attemptsCount env) := by
  cases h0 : mountedAt env 0 <;> cases h1 : mountedAt env 1 <;>
    cases h2 : mountedAt env 2 <;>
    simp [unmountRetryLoop, attemptsCount, loopSucceeded, unwindLoopTrace,
      attemptHdr, failTail, h0, h1, h2]

/-- A shutdown run's trace is `runTrace` at the run's attempt count,
loop success flag and branch decision. -/
theorem shutdownRun_eq (env : Env) :
    shutdownRun true env =
      runTrace (attemptsCount env) (loopSucceeded env) (emergencyTaken env) := by
  have hl := unmountRetryLoop_eq env
  simp [shutdownRun, unmount_filesystems, runTrace, preUnwindTrace,
    unwindHead, unwindTail, emTailTrace, seqTailTrace, write_log,
    kill_all_processes, execute_axp2202_poweroff_events, emergencyTaken, hl]

/-- Trace-level facts about one shutdown run: the terminal power-off is
called exactly once and is the last event; the bus writes are the fixed
table in the sequencing branch and absent in the emergency branch; the
sequencer start marker appears iff the sequencing branch is taken; the
stage markers appear in state-machine order; each stage marker precedes
its stage's actions; the umount count equals `attemptsCount`; the 0x27
write occurs only in the sequencing branch, immediately after the
`STEP4_TRIGGER_POWEROFF` marker; and the single SD-card log write
happens strictly before the point where SD-card logging is disabled. -/
theorem shutdownRun_facts (env : Env) :
    (shutdownRun true env).count Event.kernelPowerOff = 1 ∧
    (shutdownRun true env).getLast? = some Event.kernelPowerOff ∧
    (shutdownRun true env).dropLast.count Event.kernelPowerOff = 0 ∧
    busWrites (shutdownRun true env) =
      (if emergencyTaken env then [] else pmicTable) ∧
    (shutdownRun true env).count (Event.marker Marker.PMIC_SEQUENCE_START) =
      (if emergencyTaken env then 0 else 1) ∧
    (shutdownRun true env).filter isStageMarkerEv =
      (if emergencyTaken env then emStageMarkers else seqStageMarkers) ∧
    (shutdownRun true env).filter
        (fun e => e == Event.marker Marker.BEFORE_KILL_PROCESSES ||
          e == Event.killallTermCmd || e == Event.killallKillCmd) =
      [Event.marker Marker.BEFORE_KILL_PROCESSES, Event.killallTermCmd,
       Event.killallKillCmd] ∧
    (shutdownRun true env).filter
        (fun e => e == Event.marker Marker.BEFORE_UNMOUNT ||
          e == Event.umountSDCardCmd) =
      Event.marker Marker.BEFORE_UNMOUNT ::
        List.replicate (attemptsCount env) Event.umountSDCardCmd ∧
    (shutdownRun true env).filter
        (fun e => e == Event.marker Marker.BEFORE_PMIC_SHUTDOWN ||
          isRegWriteEv e) =
      (if emergencyTaken env then []
       else Event.marker Marker.BEFORE_PMIC_SHUTDOWN :: pmicRegEvents) ∧
    (shutdownRun true env).filter
        (fun e => e == Event.marker Marker.EMERGENCY_KERNEL_POWEROFF ||
          e == Event.marker Marker.BEFORE_KERNEL_POWEROFF ||
          e == Event.kernelPowerOff) =
      (if emergencyTaken env then
        [Event.marker Marker.EMERGENCY_KERNEL_POWEROFF, Event.kernelPowerOff]
       else
        [Event.marker Marker.BEFORE_KERNEL_POWEROFF, Event.kernelPowerOff]) ∧
    (shutdownRun true env).count Event.umountSDCardCmd = attemptsCount env ∧
    (shutdownRun true env).filter isTriggerRegWrite =
      (if emergencyTaken env then [] else [Event.regWrite 0x27 0x01]) ∧
    (if emergencyTaken env then True
     else (shutdownRun true env).indexOf (Event.regWrite 0x27 0x01) =
       (shutdownRun true env).indexOf
         (Event.marker Marker.STEP4_TRIGGER_POWEROFF) + 1) ∧
    (shutdownRun true env).count Event.sdLog = 1 ∧
    (shutdownRun true env).indexOf Event.sdLog <
      (shutdownRun true env).indexOf
        (Event.marker Marker.UNMOUNT_DISABLE_SD_LOGGING) := by
  rcases attempts_cases env with ⟨ha, hs⟩ | ⟨ha, hs⟩ | ⟨ha, hs⟩ | ⟨ha, hs⟩ <;>
    cases hE : emergencyTaken env <;>
    (rw [shutdownRun_eq env, ha, hs, hE]; decide)

/-- The unwinder's trace and outputs, via `unmountRetryLoop_eq`. -/
theorem unmount_filesystems_eq (env : Env) :
    unmount_filesystems env 0 true =
      (unwindHead ++
        unwindLoopTrace (attemptsCount env) (loopSucceeded env) ++
        unwindTail,
       attemptsCount env, false) := by
  simp [unmount_filesystems, unwindHead, unwindTail, unmountRetryLoop_eq env]

/-! ### Claims -/

/-- Claim C1: in every shutdown run the terminal power-off primitive is
invoked exactly once and is the final event of the run.  When the
post-unwind probe reports the volume still mounted (`emergencyTaken`),
no PMIC register write is issued on the bus and the PMIC Shutdown
Sequencer is never entered (its start marker is absent); when the probe
reports the volume unmounted, the full PMIC register program is issued,
and — the terminal call being the unique last event — every register
write precedes it.  This is the mutual exclusion of the
`EmergencyPoweroff` and `Sequencing` branches. -/
theorem c1_branch_mutual_exclusion (env : Env) :
    (shutdownRun true env).count Event.kernelPowerOff = 1 ∧
    (shutdownRun true env).getLast? = some Event.kernelPowerOff ∧
    (shutdownRun true env).dropLast.count Event.kernelPowerOff = 0 ∧
    busWrites (shutdownRun true env) =
      (if emergencyTaken env then [] else pmicTable) ∧
    (shutdownRun true env).count (Event.marker Marker.PMIC_SEQUENCE_START) =
      (if emergencyTaken env then 0 else 1) := by
  obtain ⟨h1, h2, h3, h4, h5, -⟩ := shutdownRun_facts env
  exact ⟨h1, h2, h3, h4, h5⟩

/-- Claim C2: whatever the per-write transfer outcomes, one execution of
the PMIC Shutdown Sequencer issues on the bus exactly the fixed table —
0x40..0x44 each written 0x00, then 0x48..0x4C each written 0xFF, then
0x22 written 0x0A, then 0x27 written 0x01 — in order, with no omissions
and no reordering. -/
theorem c2_pmic_fixed_table (txRes : Nat → Int) (ix : Nat) :
    busWrites (execute_axp2202_poweroff true txRes ix).1 = pmicTable ∧
    pmicTable =
      [(0x40, 0x00), (0x41, 0x00), (0x42, 0x00), (0x43, 0x00), (0x44, 0x00),
       (0x48, 0xFF), (0x49, 0xFF), (0x4A, 0xFF), (0x4B, 0xFF), (0x4C, 0xFF),
       (0x22, 0x0A), (0x27, 0x01)] := by
  refine ⟨?_, by decide⟩
  rw [execute_axp2202_poweroff_events]
  decide

/-- Claim C3 (evaluation of the failing input): with a stale trigger
file present at module load and everything succeeding, initialization
merely truncates the file — which still exists afterwards — so the
monitor thread's existence-only check detects it and the device
immediately re-enters the full shutdown sequence on the new boot, even
though no new trigger was ever created (`signalLater = false`). -/
theorem c3_stale_trigger_still_detected :
    (poweroff_hook_init ienvStale).ret = 0 ∧
    (poweroff_hook_init ienvStale).triggerFile = some 0 ∧
    monitorDetects (poweroff_hook_init ienvStale).triggerFile = true ∧
    envQuick.signalLater = false ∧
    (moduleRun ienvStale envQuick).count Event.kernelPowerOff = 1 := by
  decide

/-- Claim C4 (counterexample): in the run where the first unmount
attempt already succeeds, the unwinder performs exactly 1 unmount action
on the removable volume, which is not between 3 and 5. -/
theorem c4_counterexample_first_attempt :
    (unmount_filesystems envQuick 0 true).1.count Event.umountSDCardCmd = 1 ∧
    ¬(3 ≤ (unmount_filesystems envQuick 0 true).1.count
        Event.umountSDCardCmd ∧
      (unmount_filesystems envQuick 0 true).1.count
        Event.umountSDCardCmd ≤ 5) := by
  decide

/-- Claim C4 (amended): in every run of the Filesystem Unwinder the
number of unmount actions attempted on the removable volume is between
1 and 3 inclusive, and equals `attemptsCount` (the loop breaks at the
first probe reporting unmounted, after at most 3 iterations). -/
theorem c4_attempt_count_bounds (env : Env) :
    1 ≤ (unmount_filesystems env 0 true).1.count Event.umountSDCardCmd ∧
    (unmount_filesystems env 0 true).1.count Event.umountSDCardCmd ≤ 3 ∧
    (unmount_filesystems env 0 true).1.count Event.umountSDCardCmd =
      attemptsCount env := by
  rcases attempts_cases env with ⟨ha, hs⟩ | ⟨ha, hs⟩ | ⟨ha, hs⟩ | ⟨ha, hs⟩ <;>
    (rw [unmount_filesystems_eq env, ha, hs]; decide)

/-- Claim C5: module initialization issues no bus write at all (in
particular it never writes register 0x27); in a shutdown run the only
write to 0x27 is the single value 0x01 of the sequencing branch, and it
occurs immediately after the `STEP4_TRIGGER_POWEROFF` marker, i.e. as
step 4 of an active shutdown sequence. -/
theorem c5_trigger_register_only_step4 (ienv : InitEnv) (env : Env) :
    busWrites (poweroff_hook_init ienv).events = [] ∧
    (shutdownRun true env).filter isTriggerRegWrite =
      (if emergencyTaken env then [] else [Event.regWrite 0x27 0x01]) ∧
    (emergencyTaken env = false →
      (shutdownRun true env).indexOf (Event.regWrite 0x27 0x01) =
        (shutdownRun true env).indexOf
          (Event.marker Marker.STEP4_TRIGGER_POWEROFF) + 1) := by
  refine ⟨?_, ?_, ?_⟩
  · rcases ienv with ⟨aOk, tf, tOk, thOk, te⟩
    cases aOk <;> cases tf <;> cases tOk <;> cases thOk <;>
      simp [poweroff_hook_init, write_log, busWrites]
  · obtain ⟨-, -, -, -, -, -, -, -, -, -, -, h12, -⟩ := shutdownRun_facts env
    exact h12
  · intro h
    obtain ⟨-, -, -, -, -, -, -, -, -, -, -, -, h13, -⟩ :=
      shutdownRun_facts env
    rw [h] at h13
    simpa using h13

/-- Witness for C5 at a concrete run taking the sequencing branch. -/
theorem c5_witness :
    (shutdownRun true envQuick).indexOf (Event.regWrite 0x27 0x01) =
      (shutdownRun true envQuick).indexOf
        (Event.marker Marker.STEP4_TRIGGER_POWEROFF) + 1 :=
  (c5_trigger_register_only_step4 ienvClean envQuick).2.2 (by decide)

/-- Claim C6: the Register Bus Client's write issues at most one bus
transaction and performs no retry; with no open bus handle it fails
with `-ENODEV` without attempting any bus I/O; with a handle it issues
exactly one transaction, succeeds iff the transfer reports 1 message,
and on a transfer-count mismatch or negative status fails with the
negative code (the status if negative, else `-EIO`). -/
theorem c6_bus_client_contract (adapter : Bool) (res : Int)
    (reg value : Nat) :
    (axp2202_write_reg adapter res reg value).1.length ≤ 1 ∧
    (adapter = false →
      axp2202_write_reg adapter res reg value = ([], -ENODEV_errno)) ∧
    (adapter = true →
      (axp2202_write_reg adapter res reg value).1 =
        [Event.regWrite reg value] ∧
      (res = 1 → (axp2202_write_reg adapter res reg value).2 = 0) ∧
      (res ≠ 1 →
        (axp2202_write_reg adapter res reg value).2 =
          (if res < 0 then res else -EIO_errno) ∧
        (axp2202_write_reg adapter res reg value).2 < 0)) := by
  cases adapter
  · simp [axp2202_write_reg]
  · by_cases hr : res = 1
    · simp [axp2202_write_reg, hr]
    · refine ⟨?_, by simp, fun _ => ⟨?_, fun h1 => absurd h1 hr, fun _ => ⟨?_, ?_⟩⟩⟩
      · simp [axp2202_write_reg, hr]
      · simp [axp2202_write_reg, hr]
      · simp [axp2202_write_reg, hr]
      · by_cases hneg : res < 0
        · simp [axp2202_write_reg, hr, hneg]
        · simp [axp2202_write_reg, hr, hneg, EIO_errno]

/-- Witness for C6: a failing transfer with code -6 and a missing
handle, at concrete inputs. -/
theorem c6_witness :
    (axp2202_write_reg true (-6) 0x22 0x0A).1 =
      [Event.regWrite 0x22 0x0A] ∧
    (axp2202_write_reg true (-6) 0x22 0x0A).2 = -6 ∧
    axp2202_write_reg false 7 0x22 0x0A = ([], -ENODEV_errno) := by
  have h := (c6_bus_client_contract true (-6) 0x22 0x0A).2.2 rfl
  have h0 := (c6_bus_client_contract false 7 0x22 0x0A).2.1 rfl
  refine ⟨h.1, ?_, h0⟩
  have h2 := (h.2.2 (by decide)).1
  rw [h2]
  decide

/-- Claim C7: the diagnostic markers of a full run respect the state
machine's transition order: the stage markers appear exactly in the
canonical order of the branch taken, and each stage's marker is emitted
before that stage's actions (process kills, unmount actions, PMIC
register writes, the terminal power-off call) execute. -/
theorem c7_marker_order (env : Env) :
    (shutdownRun true env).filter isStageMarkerEv =
      (if emergencyTaken env then emStageMarkers else seqStageMarkers) ∧
    (shutdownRun true env).filter
        (fun e => e == Event.marker Marker.BEFORE_KILL_PROCESSES ||
          e == Event.killallTermCmd || e == Event.killallKillCmd) =
      [Event.marker Marker.BEFORE_KILL_PROCESSES, Event.killallTermCmd,
       Event.killallKillCmd] ∧
    (shutdownRun true env).filter
        (fun e => e == Event.marker Marker.BEFORE_UNMOUNT ||
          e == Event.umountSDCardCmd) =
      Event.marker Marker.BEFORE_UNMOUNT ::
        List.replicate (attemptsCount env) Event.umountSDCardCmd ∧
    (shutdownRun true env).filter
        (fun e => e == Event.marker Marker.BEFORE_PMIC_SHUTDOWN ||
          isRegWriteEv e) =
      (if emergencyTaken env then []
       else Event.marker Marker.BEFORE_PMIC_SHUTDOWN :: pmicRegEvents) ∧
    (shutdownRun true env).filter
        (fun e => e == Event.marker Marker.EMERGENCY_KERNEL_POWEROFF ||
          e == Event.marker Marker.BEFORE_KERNEL_POWEROFF ||
          e == Event.kernelPowerOff) =
      (if emergencyTaken env then
        [Event.marker Marker.EMERGENCY_KERNEL_POWEROFF, Event.kernelPowerOff]
       else
        [Event.marker Marker.BEFORE_KERNEL_POWEROFF,
         Event.kernelPowerOff]) := by
  obtain ⟨-, -, -, -, -, h6, h7, h8, h9, h10, -⟩ := shutdownRun_facts env
  exact ⟨h6, h7, h8, h9, h10⟩

/-- Claim C8: when the mount-point path cannot be resolved the kernel
module's prober reports "not mounted", and when `/proc/mounts` cannot be
opened the daemon's prober reports "unmounted"; consequently a run whose
post-unwind probe fails path resolution takes the sequencing branch, not
the emergency branch. -/
theorem c8_probe_failure_reports_unmounted (env : Env) :
    is_sdcard_mounted none = false ∧
    is_sdcard_unmounted none = true ∧
    (env.probe (unmount_filesystems env 0 true).2.1 = none →
      emergencyTaken env = false ∧
      (shutdownRun true env).filter isStageMarkerEv = seqStageMarkers) := by
  refine ⟨rfl, rfl, fun h => ?_⟩
  have he : emergencyTaken env = false := by
    unfold emergencyTaken
    rw [h]
    rfl
  refine ⟨he, ?_⟩
  obtain ⟨-, -, -, -, -, h6, -⟩ := shutdownRun_facts env
  rw [he] at h6
  simpa using h6

/-- Witness for C8 at the environment whose every path resolution
fails. -/
theorem c8_witness :
    emergencyTaken envProbeFail = false ∧
    (shutdownRun true envProbeFail).filter isStageMarkerEv =
      seqStageMarkers :=
  (c8_probe_failure_reports_unmounted envProbeFail).2.2 rfl

/-- Claim C9: the unwinder always leaves the SD-card logging flag false
(the only assignment to it in the module sets it false, before the first
unmount attempt), a disabled logger performs no file write, and in a
shutdown run the single SD-card log write happens strictly before the
point where logging is disabled — no SD-card log write ever follows
it. -/
theorem c9_sd_logging_latched (env : Env) (pIx : Nat) (b : Bool) :
    (unmount_filesystems env pIx b).2.2 = false ∧
    write_log false = [] ∧
    (shutdownRun true env).count Event.sdLog = 1 ∧
    (shutdownRun true env).indexOf Event.sdLog <
      (shutdownRun true env).indexOf
        (Event.marker Marker.UNMOUNT_DISABLE_SD_LOGGING) := by
  obtain ⟨-, -, -, -, -, -, -, -, -, -, -, -, -, h14, h15⟩ :=
    shutdownRun_facts env
  exact ⟨by simp [unmount_filesystems], rfl, h14, h15⟩

/-- Claim C10: if the I2C adapter cannot be acquired, initialization
returns `-ENODEV`, the monitor thread is never created, and the whole
module lifetime contains no terminal power-off call and no bus write —
no shutdown sequence can be armed or triggered in that run. -/
theorem c10_no_adapter_no_shutdown (ienv : InitEnv) (env : Env)
    (h : ienv.adapterOk = false) :
    (poweroff_hook_init ienv).ret = -ENODEV_errno ∧
    (poweroff_hook_init ienv).threadStarted = false ∧
    (moduleRun ienv env).count Event.kernelPowerOff = 0 ∧
    busWrites (moduleRun ienv env) = [] := by
  simp [moduleRun, poweroff_hook_init, h, busWrites]

/-- Witness for C10 at the load whose adapter acquisition fails. -/
theorem c10_witness :
    (poweroff_hook_init ienvNoAdapter).ret = -ENODEV_errno ∧
    (poweroff_hook_init ienvNoAdapter).threadStarted = false ∧
    (moduleRun ienvNoAdapter envQuick).count Event.kernelPowerOff = 0 ∧
    busWrites (moduleRun ienvNoAdapter envQuick) = [] :=
  c10_no_adapter_no_shutdown ienvNoAdapter envQuick rfl

end PoweroffHook
